import Mathlib

/-!
Shallow embedding of the X86 EVEX-to-VEX compression pass
(roxe.cdt/roxe_llvm/lib/Target/X86/X86EvexToVex.cpp).

Machine instructions are records of an opcode identifier, an operand list
and the asm-printer annotation flag.  Per-opcode descriptor metadata
(encoding class and the EVEX_K / EVEX_B / EVEX_L2 / VEX_L TSFlags bits) is
supplied as a function from opcodes, and the two generated compression
tables (X86EvexToVex128CompressTable / X86EvexToVex256CompressTable, built
into DenseMaps by AddTableEntry) are supplied as functions from opcodes to
optional VEX opcodes.  The C++ functions mutate the instruction in place;
here they return the updated instruction together with the boolean result.
-/

namespace EvexToVex

/-- Physical registers as seen by usesExtendedRegister: XMM0-31, YMM0-31,
ZMM0-31, and anything else.  The C++ code tests membership in the
contiguous enum ranges XMM16..XMM31 / YMM16..YMM31 / ZMM0..ZMM31. -/
inductive Reg where
  | xmm (i : Fin 32)
  | ymm (i : Fin 32)
  | zmm (i : Fin 32)
  | other (n : Nat)
deriving DecidableEq, Repr

/-- Explicit operands: a register reference, an immediate, or something
else (memory components etc., never inspected by this pass). -/
inductive Operand where
  | reg (r : Reg)
  | imm (v : Int)
  | otherOp
deriving DecidableEq, Repr

/-- Values of the TSFlags EncodingMask field (X86II::EncodingMask). -/
inductive Encoding where
  | Legacy
  | VEX
  | XOP
  | EVEX
deriving DecidableEq, Repr

/-- The slice of MCInstrDesc::TSFlags this pass reads. -/
structure MCInstrDesc where
  encoding : Encoding
  hasEVEX_K : Bool
  hasEVEX_B : Bool
  hasEVEX_L2 : Bool
  hasVEX_L : Bool
deriving DecidableEq, Repr

/-- Machine instruction state: opcode identifier, operand sequence, the
count of explicit operands (a prefix of the sequence), and the
AC_EVEX_2_VEX asm-printer flag. -/
structure MachineInstr where
  opcode : Nat
  numExplicitOperands : Nat
  operands : List Operand
  isEvex2VexCompressed : Bool
deriving DecidableEq, Repr

/-- MI.explicit_operands(): the first numExplicitOperands operands. -/
def explicitOperands (MI : MachineInstr) : List Operand :=
  MI.operands.take MI.numExplicitOperands

/-- The two generated EVEX-to-VEX opcode maps, as lookup functions
(DenseMap::find returning the mapped VEX opcode when present). -/
structure EvexToVexTables where
  table128 : Nat → Option Nat
  table256 : Nat → Option Nat

/-- isHiRegIdx from usesExtendedRegister: XMM or YMM register with index
between 16 and 31. -/
def isHiRegIdx (r : Reg) : Bool :=
  match r with
  | .xmm i => 16 ≤ i.val
  | .ymm i => 16 ≤ i.val
  | _ => false

/-- ZMM range test used by the defensive assertion in
usesExtendedRegister. -/
def isZMMReg (r : Reg) : Bool :=
  match r with
  | .zmm _ => true
  | _ => false

/-- Loop body of usesExtendedRegister over the explicit operand list,
ignoring the debug assertion (release-build semantics): skip non-register
operands, return true on the first high-index XMM/YMM register. -/
def usesExtendedRegisterList : List Operand → Bool
  | [] => false
  | .reg r :: rest => if isHiRegIdx r then true else usesExtendedRegisterList rest
  | _ :: rest => usesExtendedRegisterList rest

/-- usesExtendedRegister(MI): some explicit operand is an XMM/YMM register
with index 16-31. -/
def usesExtendedRegister (MI : MachineInstr) : Bool :=
  usesExtendedRegisterList (explicitOperands MI)

/-- usesExtendedRegister with the debug assertion made explicit: hitting a
ZMM register operand is a distinguishable internal fault (the C++ assert
"ZMM instructions should not be in the EVEX->VEX tables"), not a normal
boolean outcome. -/
def usesExtendedRegisterChecked : List Operand → Except Unit Bool
  | [] => .ok false
  | .reg r :: rest =>
      if isZMMReg r then .error ()
      else if isHiRegIdx r then .ok true
      else usesExtendedRegisterChecked rest
  | _ :: rest => usesExtendedRegisterChecked rest

/-- Opcode identifiers referenced by performCustomAdjustments.  The
numeric values of the generated llvm::X86 opcode enum are immaterial to
the pass (only equality is tested); distinct tags stand in for them. -/
def VALIGNDZ128rri : Nat := 1
def VALIGNDZ128rmi : Nat := 2
def VALIGNQZ128rri : Nat := 3
def VALIGNQZ128rmi : Nat := 4
def VSHUFF32X4Z256rmi : Nat := 5
def VSHUFF32X4Z256rri : Nat := 6
def VSHUFF64X2Z256rmi : Nat := 7
def VSHUFF64X2Z256rri : Nat := 8
def VSHUFI32X4Z256rmi : Nat := 9
def VSHUFI32X4Z256rri : Nat := 10
def VSHUFI64X2Z256rmi : Nat := 11
def VSHUFI64X2Z256rri : Nat := 12
def VRNDSCALEPDZ128rri : Nat := 13
def VRNDSCALEPDZ128rmi : Nat := 14
def VRNDSCALEPSZ128rri : Nat := 15
def VRNDSCALEPSZ128rmi : Nat := 16
def VRNDSCALEPDZ256rri : Nat := 17
def VRNDSCALEPDZ256rmi : Nat := 18
def VRNDSCALEPSZ256rri : Nat := 19
def VRNDSCALEPSZ256rmi : Nat := 20
def VRNDSCALESDZr : Nat := 21
def VRNDSCALESDZm : Nat := 22
def VRNDSCALESSZr : Nat := 23
def VRNDSCALESSZm : Nat := 24
def VRNDSCALESDZr_Int : Nat := 25
def VRNDSCALESDZm_Int : Nat := 26
def VRNDSCALESSZr_Int : Nat := 27
def VRNDSCALESSZm_Int : Nat := 28

/-- Switch labels of the VALIGN case of performCustomAdjustments. -/
def isVALIGNCase (opc : Nat) : Bool :=
  opc = VALIGNDZ128rri || opc = VALIGNDZ128rmi ||
  opc = VALIGNQZ128rri || opc = VALIGNQZ128rmi

/-- Switch labels of the VSHUF (lane-select) case of
performCustomAdjustments. -/
def isVSHUFCase (opc : Nat) : Bool :=
  opc = VSHUFF32X4Z256rmi || opc = VSHUFF32X4Z256rri ||
  opc = VSHUFF64X2Z256rmi || opc = VSHUFF64X2Z256rri ||
  opc = VSHUFI32X4Z256rmi || opc = VSHUFI32X4Z256rri ||
  opc = VSHUFI64X2Z256rmi || opc = VSHUFI64X2Z256rri

/-- Switch labels of the VRNDSCALE case of performCustomAdjustments. -/
def isVRNDSCALECase (opc : Nat) : Bool :=
  opc = VRNDSCALEPDZ128rri || opc = VRNDSCALEPDZ128rmi ||
  opc = VRNDSCALEPSZ128rri || opc = VRNDSCALEPSZ128rmi ||
  opc = VRNDSCALEPDZ256rri || opc = VRNDSCALEPDZ256rmi ||
  opc = VRNDSCALEPSZ256rri || opc = VRNDSCALEPSZ256rmi ||
  opc = VRNDSCALESDZr || opc = VRNDSCALESDZm ||
  opc = VRNDSCALESSZr || opc = VRNDSCALESSZm ||
  opc = VRNDSCALESDZr_Int || opc = VRNDSCALESDZm_Int ||
  opc = VRNDSCALESSZr_Int || opc = VRNDSCALESSZm_Int

/-- MI.getOperand(MI.getNumExplicitOperands()-1).getImm(): the immediate
held by the last explicit operand (getImm asserts isImm; the default 0
models only the never-taken non-immediate branch). -/
def lastExplicitImmVal (MI : MachineInstr) : Int :=
  match MI.operands.get? (MI.numExplicitOperands - 1) with
  | some (.imm v) => v
  | _ => 0

/-- Imm.setImm(v) on the last explicit operand. -/
def setLastExplicitImm (MI : MachineInstr) (v : Int) : MachineInstr :=
  { MI with operands := MI.operands.set (MI.numExplicitOperands - 1) (.imm v) }

/-- Immediate remap of the VSHUF (lane-select) case: set bit 5, move bit 1
to bit 4, copy bit 0, i.e. 0x20 | ((v & 2) << 3) | (v & 1); the shift by 3
of a value in {0, 2} is written as multiplication by 8. -/
def vshufImmRemap (v : Int) : Int :=
  Int.lor (Int.lor 0x20 ((Int.land v 2) * 8)) (Int.land v 1)

/-- performCustomAdjustments(MI, NewOpc).  The C++ version mutates MI and
returns bool; the only path returning false (the VRNDSCALE immediate
range check) performs no mutation, so the model returns none for failure
and some of the adjusted instruction for success. -/
def performCustomAdjustments (MI : MachineInstr) (_NewOpc : Nat) :
    Option MachineInstr :=
  let Opc := MI.opcode
  if isVALIGNCase Opc then
    let Scale : Int := if Opc = VALIGNQZ128rri || Opc = VALIGNQZ128rmi then 8 else 4
    some (setLastExplicitImm MI (lastExplicitImmVal MI * Scale))
  else if isVSHUFCase Opc then
    some (setLastExplicitImm MI (vshufImmRemap (lastExplicitImmVal MI)))
  else if isVRNDSCALECase Opc then
    let ImmVal := lastExplicitImmVal MI
    if Int.land ImmVal 0xf ≠ ImmVal then none else some MI
  else
    some MI

/-- Width-dispatched table search (lines 251-282): an EVEX_V256
instruction (EVEX_L2 clear, VEX_L set) is looked up in the 256 table, an
EVEX_V128 or scalar instruction (both bits clear) in the 128 table, and
any other width combination leaves NewOpc at its initial 0. -/
def lookupNewOpc (T : EvexToVexTables) (Desc : MCInstrDesc) (opcode : Nat) :
    Nat :=
  if !Desc.hasEVEX_L2 && Desc.hasVEX_L then (T.table256 opcode).getD 0
  else if !Desc.hasEVEX_L2 && !Desc.hasVEX_L then (T.table128 opcode).getD 0
  else 0

/-- CompressEvexToVexImpl(MI): the per-instruction gate chain and rewrite.
Returns the changed flag together with the (possibly rewritten)
instruction state. -/
def CompressEvexToVexImpl (descOf : Nat → MCInstrDesc) (T : EvexToVexTables)
    (MI : MachineInstr) : Bool × MachineInstr :=
  let Desc := descOf MI.opcode
  if Desc.encoding ≠ Encoding.EVEX then (false, MI)
  else if Desc.hasEVEX_K || Desc.hasEVEX_B then (false, MI)
  else if Desc.hasEVEX_L2 && !Desc.hasVEX_L then (false, MI)
  else
    let NewOpc : Nat := lookupNewOpc T Desc MI.opcode
    if NewOpc = 0 then (false, MI)
    else if usesExtendedRegister MI then (false, MI)
    else
      match performCustomAdjustments MI NewOpc with
      | none => (false, MI)
      | some MIadj =>
          (true, { MIadj with opcode := NewOpc, isEvex2VexCompressed := true })

/-- Inner loop of runOnMachineFunction over one basic block:
Changed |= CompressEvexToVexImpl(MI) for each instruction in order. -/
def compressBlock (descOf : Nat → MCInstrDesc) (T : EvexToVexTables) :
    List MachineInstr → Bool × List MachineInstr
  | [] => (false, [])
  | MI :: rest =>
      let r := CompressEvexToVexImpl descOf T MI
      let rs := compressBlock descOf T rest
      (r.1 || rs.1, r.2 :: rs.2)

/-- Outer loop of runOnMachineFunction over all basic blocks. -/
def compressFunction (descOf : Nat → MCInstrDesc) (T : EvexToVexTables) :
    List (List MachineInstr) → Bool × List (List MachineInstr)
  | [] => (false, [])
  | MBB :: rest =>
      let r := compressBlock descOf T MBB
      let rs := compressFunction descOf T rest
      (r.1 || rs.1, r.2 :: rs.2)

/-- runOnMachineFunction(MF): bail out when the subtarget lacks AVX512,
otherwise compress every instruction of every block and report whether
anything changed. -/
def runOnMachineFunction (descOf : Nat → MCInstrDesc) (T : EvexToVexTables)
    (hasAVX512 : Bool) (MF : List (List MachineInstr)) :
    Bool × List (List MachineInstr) :=
  if !hasAVX512 then (false, MF)
  else compressFunction descOf T MF

/-! Helper lemmas shared by the claim theorems. -/

lemma lookupNewOpc_of_L2 (T : EvexToVexTables) (Desc : MCInstrDesc)
    (opc : Nat) (h : Desc.hasEVEX_L2 = true) : lookupNewOpc T Desc opc = 0 := by
  simp [lookupNewOpc, h]

lemma lookupNewOpc_of_V128 (T : EvexToVexTables) (Desc : MCInstrDesc)
    (opc : Nat) (h2 : Desc.hasEVEX_L2 = false) (hL : Desc.hasVEX_L = false) :
    lookupNewOpc T Desc opc = (T.table128 opc).getD 0 := by
  simp [lookupNewOpc, h2, hL]

lemma lookupNewOpc_of_V256 (T : EvexToVexTables) (Desc : MCInstrDesc)
    (opc : Nat) (h2 : Desc.hasEVEX_L2 = false) (hL : Desc.hasVEX_L = true) :
    lookupNewOpc T Desc opc = (T.table256 opc).getD 0 := by
  simp [lookupNewOpc, h2, hL]

lemma lookupNewOpc_ne_zero_L2 (T : EvexToVexTables) (Desc : MCInstrDesc)
    (opc : Nat) (h : lookupNewOpc T Desc opc ≠ 0) : Desc.hasEVEX_L2 = false := by
  by_contra hc
  exact h (lookupNewOpc_of_L2 T Desc opc (by revert hc; cases Desc.hasEVEX_L2 <;> simp))

lemma lookupNewOpc_mem (T : EvexToVexTables) (Desc : MCInstrDesc)
    (opc : Nat) (h : lookupNewOpc T Desc opc ≠ 0) :
    T.table128 opc = some (lookupNewOpc T Desc opc) ∨
    T.table256 opc = some (lookupNewOpc T Desc opc) := by
  have h2 := lookupNewOpc_ne_zero_L2 T Desc opc h
  cases hL : Desc.hasVEX_L with
  | false =>
      left
      rw [lookupNewOpc_of_V128 T Desc opc h2 hL] at h ⊢
      cases ht : T.table128 opc with
      | none => rw [ht] at h; simp at h
      | some v => simp
  | true =>
      right
      rw [lookupNewOpc_of_V256 T Desc opc h2 hL] at h ⊢
      cases ht : T.table256 opc with
      | none => rw [ht] at h; simp at h
      | some v => simp

/-- Structure of every run of CompressEvexToVexImpl: either it fails and
returns the instruction unchanged, or every gate passed and it returns
the rewritten instruction with the annotation flag set. -/
lemma compress_shape (descOf : Nat → MCInstrDesc) (T : EvexToVexTables)
    (MI : MachineInstr) :
    CompressEvexToVexImpl descOf T MI = (false, MI) ∨
    ((descOf MI.opcode).encoding = Encoding.EVEX ∧
     (descOf MI.opcode).hasEVEX_K = false ∧
     (descOf MI.opcode).hasEVEX_B = false ∧
     lookupNewOpc T (descOf MI.opcode) MI.opcode ≠ 0 ∧
     usesExtendedRegister MI = false ∧
     ∃ MIadj,
       performCustomAdjustments MI (lookupNewOpc T (descOf MI.opcode) MI.opcode) =
         some MIadj ∧
       CompressEvexToVexImpl descOf T MI =
         (true, { MIadj with
                    opcode := lookupNewOpc T (descOf MI.opcode) MI.opcode,
                    isEvex2VexCompressed := true })) := by
  simp only [CompressEvexToVexImpl]
  split
  · exact Or.inl rfl
  next h1 =>
    split
    · exact Or.inl rfl
    next h2 =>
      split
      · exact Or.inl rfl
      next h3 =>
        split
        · exact Or.inl rfl
        next h4 =>
          split
          · exact Or.inl rfl
          next h5 =>
            split
            · exact Or.inl rfl
            next MIadj h7 =>
              refine Or.inr ⟨not_not.mp h1, ?_, ?_, h4, ?_, MIadj, h7, rfl⟩
              · revert h2; cases (descOf MI.opcode).hasEVEX_K <;> simp
              · revert h2; cases (descOf MI.opcode).hasEVEX_B <;> simp
              · revert h5; cases usesExtendedRegister MI <;> simp

lemma compress_of_not_evex (descOf : Nat → MCInstrDesc) (T : EvexToVexTables)
    (MI : MachineInstr) (h : (descOf MI.opcode).encoding ≠ Encoding.EVEX) :
    CompressEvexToVexImpl descOf T MI = (false, MI) := by
  rcases compress_shape descOf T MI with hs | ⟨h1, _⟩
  · exact hs
  · exact absurd h1 h

lemma compress_of_lookup_zero (descOf : Nat → MCInstrDesc) (T : EvexToVexTables)
    (MI : MachineInstr) (h : lookupNewOpc T (descOf MI.opcode) MI.opcode = 0) :
    CompressEvexToVexImpl descOf T MI = (false, MI) := by
  rcases compress_shape descOf T MI with hs | ⟨_, _, _, h4, _⟩
  · exact hs
  · exact absurd h h4

lemma compress_of_extReg (descOf : Nat → MCInstrDesc) (T : EvexToVexTables)
    (MI : MachineInstr) (h : usesExtendedRegister MI = true) :
    CompressEvexToVexImpl descOf T MI = (false, MI) := by
  rcases compress_shape descOf T MI with hs | ⟨_, _, _, _, h5, _⟩
  · exact hs
  · rw [h] at h5; cases h5

lemma compress_success (descOf : Nat → MCInstrDesc) (T : EvexToVexTables)
    (MI MIadj : MachineInstr)
    (h1 : (descOf MI.opcode).encoding = Encoding.EVEX)
    (h2 : (descOf MI.opcode).hasEVEX_K = false)
    (h3 : (descOf MI.opcode).hasEVEX_B = false)
    (h4 : lookupNewOpc T (descOf MI.opcode) MI.opcode ≠ 0)
    (h5 : usesExtendedRegister MI = false)
    (h6 : performCustomAdjustments MI (lookupNewOpc T (descOf MI.opcode) MI.opcode) =
      some MIadj) :
    CompressEvexToVexImpl descOf T MI =
      (true, { MIadj with
                 opcode := lookupNewOpc T (descOf MI.opcode) MI.opcode,
                 isEvex2VexCompressed := true }) := by
  have hL2 := lookupNewOpc_ne_zero_L2 T (descOf MI.opcode) MI.opcode h4
  simp only [CompressEvexToVexImpl, h1, h2, h3, hL2, h5, h6]
  simp [h4]

lemma compress_table_congr (descOf : Nat → MCInstrDesc) (T T' : EvexToVexTables)
    (MI : MachineInstr)
    (h : lookupNewOpc T (descOf MI.opcode) MI.opcode =
      lookupNewOpc T' (descOf MI.opcode) MI.opcode) :
    CompressEvexToVexImpl descOf T MI = CompressEvexToVexImpl descOf T' MI := by
  simp only [CompressEvexToVexImpl, h]

lemma usesExtendedRegisterList_of_mem (ops : List Operand) (r : Reg)
    (hmem : Operand.reg r ∈ ops) (hhi : isHiRegIdx r = true) :
    usesExtendedRegisterList ops = true := by
  induction ops with
  | nil => cases hmem
  | cons o rest ih =>
      rcases List.mem_cons.mp hmem with ho | ho
      · rw [← ho]
        simp [usesExtendedRegisterList, hhi]
      · cases o with
        | reg r2 =>
            by_cases h2 : isHiRegIdx r2 = true
            · simp [usesExtendedRegisterList, h2]
            · simp [usesExtendedRegisterList, h2, ih ho]
        | imm v => simpa [usesExtendedRegisterList] using ih ho
        | otherOp => simpa [usesExtendedRegisterList] using ih ho

lemma usesExtendedRegisterChecked_eq_ok (ops : List Operand)
    (hinv : ∀ i : Fin 32, Operand.reg (Reg.zmm i) ∉ ops) :
    usesExtendedRegisterChecked ops = .ok (usesExtendedRegisterList ops) := by
  induction ops with
  | nil => rfl
  | cons o rest ih =>
      have hrest : ∀ i : Fin 32, Operand.reg (Reg.zmm i) ∉ rest := by
        intro i hi
        exact hinv i (List.mem_cons_of_mem o hi)
      cases o with
      | reg r =>
          have hz : isZMMReg r = false := by
            cases r with
            | zmm i => exact absurd (List.mem_cons_self _ _) (hinv i)
            | xmm i => rfl
            | ymm i => rfl
            | other n => rfl
          by_cases hh : isHiRegIdx r = true
          · simp [usesExtendedRegisterChecked, usesExtendedRegisterList, hz, hh]
          · simp [usesExtendedRegisterChecked, usesExtendedRegisterList, hz, hh,
              ih hrest]
      | imm v =>
          simpa [usesExtendedRegisterChecked, usesExtendedRegisterList] using ih hrest
      | otherOp =>
          simpa [usesExtendedRegisterChecked, usesExtendedRegisterList] using ih hrest

lemma setLastExplicitImm_spec (MI : MachineInstr) (v : Int) :
    (setLastExplicitImm MI v).opcode = MI.opcode ∧
    (setLastExplicitImm MI v).isEvex2VexCompressed = MI.isEvex2VexCompressed ∧
    (setLastExplicitImm MI v).numExplicitOperands = MI.numExplicitOperands ∧
    (setLastExplicitImm MI v).operands.length = MI.operands.length ∧
    (∀ i, i ≠ MI.numExplicitOperands - 1 →
      (setLastExplicitImm MI v).operands.get? i = MI.operands.get? i) := by
  refine ⟨rfl, rfl, rfl, by simp [setLastExplicitImm], ?_⟩
  intro i hi
  simp only [setLastExplicitImm]
  exact List.get?_set_ne _ _ (fun he => hi he.symm)

/-- Frame property of performCustomAdjustments: on success the adjusted
instruction agrees with the input except possibly at the last explicit
operand, and is fully identical outside the VALIGN and VSHUF cases. -/
lemma adjust_shape (MI : MachineInstr) (newOpc : Nat) (MIadj : MachineInstr)
    (h : performCustomAdjustments MI newOpc = some MIadj) :
    MIadj.opcode = MI.opcode ∧
    MIadj.isEvex2VexCompressed = MI.isEvex2VexCompressed ∧
    MIadj.numExplicitOperands = MI.numExplicitOperands ∧
    MIadj.operands.length = MI.operands.length ∧
    (∀ i, i ≠ MI.numExplicitOperands - 1 →
      MIadj.operands.get? i = MI.operands.get? i) ∧
    ((isVALIGNCase MI.opcode = false ∧ isVSHUFCase MI.opcode = false) →
      MIadj = MI) := by
  simp only [performCustomAdjustments] at h
  split at h
  next hca =>
      obtain rfl : setLastExplicitImm MI _ = MIadj := by injection h
      refine ⟨(setLastExplicitImm_spec MI _).1, (setLastExplicitImm_spec MI _).2.1,
        (setLastExplicitImm_spec MI _).2.2.1, (setLastExplicitImm_spec MI _).2.2.2.1,
        (setLastExplicitImm_spec MI _).2.2.2.2, ?_⟩
      rintro ⟨hva, _⟩
      rw [hca] at hva
      cases hva
  next hca =>
      split at h
      next hcs =>
          obtain rfl : setLastExplicitImm MI _ = MIadj := by injection h
          refine ⟨(setLastExplicitImm_spec MI _).1, (setLastExplicitImm_spec MI _).2.1,
            (setLastExplicitImm_spec MI _).2.2.1,
            (setLastExplicitImm_spec MI _).2.2.2.1,
            (setLastExplicitImm_spec MI _).2.2.2.2, ?_⟩
          rintro ⟨_, hvs⟩
          rw [hcs] at hvs
          cases hvs
      next hcs =>
          split at h
          next hcr =>
              split at h
              next => cases h
              next =>
                  obtain rfl : MI = MIadj := by injection h
                  exact ⟨rfl, rfl, rfl, rfl, fun i _ => rfl, fun _ => rfl⟩
          next hcr =>
              obtain rfl : MI = MIadj := by injection h
              exact ⟨rfl, rfl, rfl, rfl, fun i _ => rfl, fun _ => rfl⟩

lemma vrndscale_not_valign_vshuf (opc : Nat) (h : isVRNDSCALECase opc = true) :
    isVALIGNCase opc = false ∧ isVSHUFCase opc = false := by
  simp only [isVRNDSCALECase, VRNDSCALEPDZ128rri, VRNDSCALEPDZ128rmi,
    VRNDSCALEPSZ128rri, VRNDSCALEPSZ128rmi, VRNDSCALEPDZ256rri, VRNDSCALEPDZ256rmi,
    VRNDSCALEPSZ256rri, VRNDSCALEPSZ256rmi, VRNDSCALESDZr, VRNDSCALESDZm,
    VRNDSCALESSZr, VRNDSCALESSZm, VRNDSCALESDZr_Int, VRNDSCALESDZm_Int,
    VRNDSCALESSZr_Int, VRNDSCALESSZm_Int, Bool.or_eq_true, decide_eq_true_eq] at h
  constructor <;>
    simp only [isVALIGNCase, isVSHUFCase, VALIGNDZ128rri, VALIGNDZ128rmi,
      VALIGNQZ128rri, VALIGNQZ128rmi, VSHUFF32X4Z256rmi, VSHUFF32X4Z256rri,
      VSHUFF64X2Z256rmi, VSHUFF64X2Z256rri, VSHUFI32X4Z256rmi, VSHUFI32X4Z256rri,
      VSHUFI64X2Z256rmi, VSHUFI64X2Z256rri, Bool.or_eq_false_iff,
      decide_eq_false_iff_not] <;> omega

lemma vshuf_not_valign (opc : Nat) (h : isVSHUFCase opc = true) :
    isVALIGNCase opc = false := by
  simp only [isVSHUFCase, VSHUFF32X4Z256rmi, VSHUFF32X4Z256rri, VSHUFF64X2Z256rmi,
    VSHUFF64X2Z256rri, VSHUFI32X4Z256rmi, VSHUFI32X4Z256rri, VSHUFI64X2Z256rmi,
    VSHUFI64X2Z256rri, Bool.or_eq_true, decide_eq_true_eq] at h
  simp only [isVALIGNCase, VALIGNDZ128rri, VALIGNDZ128rmi, VALIGNQZ128rri,
    VALIGNQZ128rmi, Bool.or_eq_false_iff, decide_eq_false_iff_not]
  omega

set_option maxRecDepth 4000 in
lemma int_land15_iff : ∀ n : Nat, n < 256 →
    ((Int.land (n : Int) 15 = (n : Int)) ↔ n < 16) := by decide

/-- Table with every zero-valued (sentinel) entry removed. -/
def eraseZeroEntries (t : Nat → Option Nat) : Nat → Option Nat := fun opc =>
  match t opc with
  | some 0 => none
  | r => r

lemma eraseZeroEntries_getD (t : Nat → Option Nat) (opc : Nat) :
    (eraseZeroEntries t opc).getD 0 = (t opc).getD 0 := by
  unfold eraseZeroEntries
  cases h : t opc with
  | none => rfl
  | some v => cases v <;> simp

lemma lookupNewOpc_erase (T : EvexToVexTables) (Desc : MCInstrDesc) (opc : Nat) :
    lookupNewOpc ⟨eraseZeroEntries T.table128, eraseZeroEntries T.table256⟩ Desc opc =
      lookupNewOpc T Desc opc := by
  by_cases h1 : (!Desc.hasEVEX_L2 && Desc.hasVEX_L) = true
  · simp [lookupNewOpc, h1, eraseZeroEntries_getD]
  · by_cases h2 : (!Desc.hasEVEX_L2 && !Desc.hasVEX_L) = true
    · simp [lookupNewOpc, h1, h2, eraseZeroEntries_getD]
    · simp [lookupNewOpc, h1, h2]

lemma lookupNewOpc_zero_of_getD (T : EvexToVexTables) (Desc : MCInstrDesc)
    (opc : Nat) (h1 : (T.table128 opc).getD 0 = 0)
    (h2 : (T.table256 opc).getD 0 = 0) : lookupNewOpc T Desc opc = 0 := by
  unfold lookupNewOpc
  split
  · exact h2
  · split
    · exact h1
    · rfl

lemma compress_idem (descOf : Nat → MCInstrDesc) (T : EvexToVexTables)
    (hVex : ∀ e v, (T.table128 e = some v ∨ T.table256 e = some v) → v ≠ 0 →
      (descOf v).encoding ≠ Encoding.EVEX) (MI : MachineInstr) :
    CompressEvexToVexImpl descOf T ((CompressEvexToVexImpl descOf T MI).2) =
      (false, (CompressEvexToVexImpl descOf T MI).2) := by
  rcases compress_shape descOf T MI with hs | ⟨h1, h2, h3, h4, h5, MIadj, h6, hs⟩
  · rw [hs]
    exact hs
  · rw [hs]
    apply compress_of_not_evex
    show (descOf (lookupNewOpc T (descOf MI.opcode) MI.opcode)).encoding ≠
      Encoding.EVEX
    rcases lookupNewOpc_mem T (descOf MI.opcode) MI.opcode h4 with ht | ht
    · exact hVex _ _ (Or.inl ht) h4
    · exact hVex _ _ (Or.inr ht) h4

lemma compressBlock_idem (descOf : Nat → MCInstrDesc) (T : EvexToVexTables)
    (hVex : ∀ e v, (T.table128 e = some v ∨ T.table256 e = some v) → v ≠ 0 →
      (descOf v).encoding ≠ Encoding.EVEX) (MBB : List MachineInstr) :
    compressBlock descOf T ((compressBlock descOf T MBB).2) =
      (false, (compressBlock descOf T MBB).2) := by
  induction MBB with
  | nil => rfl
  | cons MI rest ih =>
      simp only [compressBlock]
      rw [compress_idem descOf T hVex MI, ih]
      simp

lemma compressFunction_idem (descOf : Nat → MCInstrDesc) (T : EvexToVexTables)
    (hVex : ∀ e v, (T.table128 e = some v ∨ T.table256 e = some v) → v ≠ 0 →
      (descOf v).encoding ≠ Encoding.EVEX) (MF : List (List MachineInstr)) :
    compressFunction descOf T ((compressFunction descOf T MF).2) =
      (false, (compressFunction descOf T MF).2) := by
  induction MF with
  | nil => rfl
  | cons MBB rest ih =>
      simp only [compressFunction]
      rw [compressBlock_idem descOf T hVex MBB, ih]
      simp

/-- Concrete descriptor assignment for the idempotence witness: opcode 100
is an eligible EVEX W128 instruction; everything else (in particular the
short-form target 200) is VEX encoded. -/
def idemDescOf : Nat → MCInstrDesc := fun opc =>
  if opc = 100 then ⟨Encoding.EVEX, false, false, false, false⟩
  else ⟨Encoding.VEX, false, false, false, false⟩

/-- Concrete tables for the idempotence witness: the single entry
100 to 200 in the 128 partition. -/
def idemTables : EvexToVexTables where
  table128 := fun opc => if opc = 100 then some 200 else none
  table256 := fun _ => none

lemma idemTables_vex : ∀ e v,
    (idemTables.table128 e = some v ∨ idemTables.table256 e = some v) → v ≠ 0 →
    (idemDescOf v).encoding ≠ Encoding.EVEX := by
  intro e v h _
  rcases h with h | h
  · simp only [idemTables] at h
    split at h
    · cases h
      decide
    · cases h
  · cases h

/-! The claim theorems. -/

/-- C1: whenever CompressEvexToVexImpl fails at any stage (wrong encoding
class, mask or broadcast flag, wrong width class, table miss, extended
register, or immediate validation failure) it returns false and the
instruction is completely unchanged: same opcode, same operand sequence,
annotation flag untouched. -/
theorem C1_failure_leaves_instruction_unchanged (descOf : Nat → MCInstrDesc)
    (T : EvexToVexTables) (MI : MachineInstr)
    (h : (CompressEvexToVexImpl descOf T MI).1 = false) :
    (CompressEvexToVexImpl descOf T MI).2 = MI := by
  rcases compress_shape descOf T MI with hs | ⟨_, _, _, _, _, MIadj, _, hs⟩
  · rw [hs]
  · rw [hs] at h
    cases h

/-- C1 witness: a Legacy-encoded instruction fails the first gate and is
returned unchanged. -/
theorem C1_witness :
    (CompressEvexToVexImpl (fun _ => ⟨Encoding.Legacy, false, false, false, false⟩)
      ⟨fun _ => some 200, fun _ => some 200⟩
      ⟨100, 2, [Operand.reg (Reg.xmm 3), Operand.imm 7], false⟩).2 =
      ⟨100, 2, [Operand.reg (Reg.xmm 3), Operand.imm 7], false⟩ :=
  C1_failure_leaves_instruction_unchanged _ _ _ rfl

/-- C2: running the pass twice yields output identical to running it once;
under the table property that every mapped short-form opcode is not
EVEX-encoded (it is VEX-encoded), every instruction rewritten in the first
run fails the encoding-class gate in the second run, so the second run
changes nothing and reports false. -/
theorem C2_pass_idempotent (descOf : Nat → MCInstrDesc) (T : EvexToVexTables)
    (hasAVX512 : Bool) (MF : List (List MachineInstr))
    (hVex : ∀ e v, (T.table128 e = some v ∨ T.table256 e = some v) → v ≠ 0 →
      (descOf v).encoding ≠ Encoding.EVEX) :
    runOnMachineFunction descOf T hasAVX512
        ((runOnMachineFunction descOf T hasAVX512 MF).2) =
      (false, (runOnMachineFunction descOf T hasAVX512 MF).2) := by
  cases hasAVX512 with
  | false => rfl
  | true =>
      simp only [runOnMachineFunction, Bool.not_true, Bool.false_eq_true,
        if_false]
      exact compressFunction_idem descOf T hVex MF

/-- C2 witness: a unit holding one compressible instruction; the second
run of the pass is a no-op on the output of the first. -/
theorem C2_witness :
    runOnMachineFunction idemDescOf idemTables true
        ((runOnMachineFunction idemDescOf idemTables true
          [[⟨100, 3, [Operand.reg (Reg.xmm 1), Operand.reg (Reg.xmm 2),
              Operand.reg (Reg.xmm 3)], false⟩]]).2) =
      (false, (runOnMachineFunction idemDescOf idemTables true
        [[⟨100, 3, [Operand.reg (Reg.xmm 1), Operand.reg (Reg.xmm 2),
            Operand.reg (Reg.xmm 3)], false⟩]]).2) :=
  C2_pass_idempotent idemDescOf idemTables true _ idemTables_vex

/-- C3: the width class alone decides table dispatch: W512 (EVEX_L2 set,
VEX_L clear) instructions are never rewritten whatever the tables hold;
the unresolvable combination (both bits set) likewise; a W128 instruction
is insensitive to the whole 256 partition, and a W256 instruction to the
whole 128 partition, so an entry present only in the other partition never
causes a rewrite. -/
theorem C3_width_class_decides_dispatch (descOf : Nat → MCInstrDesc)
    (T Talt : EvexToVexTables) (MI : MachineInstr) :
    ((descOf MI.opcode).hasEVEX_L2 = true → (descOf MI.opcode).hasVEX_L = false →
      CompressEvexToVexImpl descOf T MI = (false, MI)) ∧
    ((descOf MI.opcode).hasEVEX_L2 = true → (descOf MI.opcode).hasVEX_L = true →
      CompressEvexToVexImpl descOf T MI = (false, MI)) ∧
    ((descOf MI.opcode).hasEVEX_L2 = false → (descOf MI.opcode).hasVEX_L = false →
      CompressEvexToVexImpl descOf T MI =
        CompressEvexToVexImpl descOf ⟨T.table128, Talt.table256⟩ MI) ∧
    ((descOf MI.opcode).hasEVEX_L2 = false → (descOf MI.opcode).hasVEX_L = true →
      CompressEvexToVexImpl descOf T MI =
        CompressEvexToVexImpl descOf ⟨Talt.table128, T.table256⟩ MI) := by
  refine ⟨?_, ?_, ?_, ?_⟩
  · intro h2 _
    exact compress_of_lookup_zero descOf T MI
      (lookupNewOpc_of_L2 T (descOf MI.opcode) MI.opcode h2)
  · intro h2 _
    exact compress_of_lookup_zero descOf T MI
      (lookupNewOpc_of_L2 T (descOf MI.opcode) MI.opcode h2)
  · intro h2 hL
    apply compress_table_congr
    rw [lookupNewOpc_of_V128 T (descOf MI.opcode) MI.opcode h2 hL,
      lookupNewOpc_of_V128 ⟨T.table128, Talt.table256⟩ (descOf MI.opcode)
        MI.opcode h2 hL]
  · intro h2 hL
    apply compress_table_congr
    rw [lookupNewOpc_of_V256 T (descOf MI.opcode) MI.opcode h2 hL,
      lookupNewOpc_of_V256 ⟨Talt.table128, T.table256⟩ (descOf MI.opcode)
        MI.opcode h2 hL]

/-- C3 witness: a W512 instruction and a both-bits-set instruction are
left unchanged even with full tables; a W128 instruction is insensitive to
the 256 partition and a W256 instruction to the 128 partition. -/
theorem C3_witness :
    (CompressEvexToVexImpl (fun _ => ⟨Encoding.EVEX, false, false, true, false⟩)
      ⟨fun _ => some 200, fun _ => some 200⟩
      ⟨100, 1, [Operand.reg (Reg.zmm 4)], false⟩ =
      (false, ⟨100, 1, [Operand.reg (Reg.zmm 4)], false⟩)) ∧
    (CompressEvexToVexImpl (fun _ => ⟨Encoding.EVEX, false, false, true, true⟩)
      ⟨fun _ => some 200, fun _ => some 200⟩
      ⟨100, 1, [Operand.imm 5], false⟩ =
      (false, ⟨100, 1, [Operand.imm 5], false⟩)) ∧
    (CompressEvexToVexImpl (fun _ => ⟨Encoding.EVEX, false, false, false, false⟩)
      ⟨fun _ => none, fun _ => some 200⟩
      ⟨100, 1, [Operand.reg (Reg.xmm 1)], false⟩ =
      CompressEvexToVexImpl (fun _ => ⟨Encoding.EVEX, false, false, false, false⟩)
        ⟨fun _ => none, fun _ => none⟩
        ⟨100, 1, [Operand.reg (Reg.xmm 1)], false⟩) ∧
    (CompressEvexToVexImpl (fun _ => ⟨Encoding.EVEX, false, false, false, true⟩)
      ⟨fun _ => some 200, fun _ => none⟩
      ⟨100, 1, [Operand.reg (Reg.ymm 1)], false⟩ =
      CompressEvexToVexImpl (fun _ => ⟨Encoding.EVEX, false, false, false, true⟩)
        ⟨fun _ => none, fun _ => none⟩
        ⟨100, 1, [Operand.reg (Reg.ymm 1)], false⟩) :=
  ⟨(C3_width_class_decides_dispatch _ _ ⟨fun _ => none, fun _ => none⟩ _).1 rfl rfl,
   (C3_width_class_decides_dispatch _ _ ⟨fun _ => none, fun _ => none⟩ _).2.1 rfl rfl,
   (C3_width_class_decides_dispatch _ ⟨fun _ => none, fun _ => some 200⟩
     ⟨fun _ => none, fun _ => none⟩ _).2.2.1 rfl rfl,
   (C3_width_class_decides_dispatch _ ⟨fun _ => some 200, fun _ => none⟩
     ⟨fun _ => none, fun _ => none⟩ _).2.2.2 rfl rfl⟩

/-- C4: an instruction whose descriptor has the mask flag (EVEX_K) or the
broadcast flag (EVEX_B) set is never rewritten, whatever the tables hold
(even with a matching table entry present). -/
theorem C4_mask_broadcast_never_rewritten (descOf : Nat → MCInstrDesc)
    (T : EvexToVexTables) (MI : MachineInstr)
    (h : (descOf MI.opcode).hasEVEX_K = true ∨
      (descOf MI.opcode).hasEVEX_B = true) :
    CompressEvexToVexImpl descOf T MI = (false, MI) := by
  rcases compress_shape descOf T MI with hs | ⟨_, h2, h3, _⟩
  · exact hs
  · rcases h with h | h
    · rw [h] at h2; cases h2
    · rw [h] at h3; cases h3

/-- C4 witness: a masked EVEX instruction with a matching table entry is
left unchanged. -/
theorem C4_witness :
    CompressEvexToVexImpl (fun _ => ⟨Encoding.EVEX, true, false, false, false⟩)
      ⟨fun _ => some 200, fun _ => some 200⟩
      ⟨100, 1, [Operand.reg (Reg.xmm 0)], false⟩ =
      (false, ⟨100, 1, [Operand.reg (Reg.xmm 0)], false⟩) :=
  C4_mask_broadcast_never_rewritten _ _ _ (Or.inl rfl)

/-- C5: an eligible instruction with a table hit whose explicit operands
include an XMM or YMM register with index 16-31 is left unmodified and
CompressEvexToVexImpl returns false. -/
theorem C5_extended_register_blocks_rewrite (descOf : Nat → MCInstrDesc)
    (T : EvexToVexTables) (MI : MachineInstr) (r : Reg) (newOpc : Nat)
    (henc : (descOf MI.opcode).encoding = Encoding.EVEX)
    (hK : (descOf MI.opcode).hasEVEX_K = false)
    (hB : (descOf MI.opcode).hasEVEX_B = false)
    (hhit : lookupNewOpc T (descOf MI.opcode) MI.opcode = newOpc)
    (hnz : newOpc ≠ 0)
    (hmem : Operand.reg r ∈ explicitOperands MI)
    (hhi : isHiRegIdx r = true) :
    CompressEvexToVexImpl descOf T MI = (false, MI) :=
  compress_of_extReg descOf T MI
    (usesExtendedRegisterList_of_mem (explicitOperands MI) r hmem hhi)

/-- C5 witness: an eligible W128 instruction with a table hit and a YMM20
operand is left unchanged. -/
theorem C5_witness :
    CompressEvexToVexImpl (fun _ => ⟨Encoding.EVEX, false, false, false, false⟩)
      ⟨fun _ => some 200, fun _ => none⟩
      ⟨100, 3, [Operand.reg (Reg.xmm 1), Operand.reg (Reg.ymm 20),
        Operand.imm 2], false⟩ =
      (false, ⟨100, 3, [Operand.reg (Reg.xmm 1), Operand.reg (Reg.ymm 20),
        Operand.imm 2], false⟩) :=
  C5_extended_register_blocks_rewrite _ _ _ (Reg.ymm 20) 200 rfl rfl rfl rfl
    (by decide) (by decide) rfl

/-- C6: a VRNDSCALE-family instruction reaching the immediate-adjustment
stage (eligible, table hit, no extended register) with 8-bit immediate n:
if any of bits 4-7 is set (16 ≤ n) the rewrite is aborted with opcode and
immediate unchanged; if n fits in bits 0-3 (n < 16) it is rewritten to the
table opcode with the immediate unchanged. -/
theorem C6_rndscale_immediate_validation (descOf : Nat → MCInstrDesc)
    (T : EvexToVexTables) (MI : MachineInstr) (n : Nat)
    (hop : isVRNDSCALECase MI.opcode = true)
    (henc : (descOf MI.opcode).encoding = Encoding.EVEX)
    (hK : (descOf MI.opcode).hasEVEX_K = false)
    (hB : (descOf MI.opcode).hasEVEX_B = false)
    (hnz : lookupNewOpc T (descOf MI.opcode) MI.opcode ≠ 0)
    (hext : usesExtendedRegister MI = false)
    (himm : MI.operands.get? (MI.numExplicitOperands - 1) =
      some (Operand.imm (n : Int)))
    (hn : n < 256) :
    (16 ≤ n → CompressEvexToVexImpl descOf T MI = (false, MI)) ∧
    (n < 16 → CompressEvexToVexImpl descOf T MI =
      (true, { MI with
                 opcode := lookupNewOpc T (descOf MI.opcode) MI.opcode,
                 isEvex2VexCompressed := true })) := by
  have hval : lastExplicitImmVal MI = (n : Int) := by
    unfold lastExplicitImmVal
    rw [himm]
  obtain ⟨hva, hvs⟩ := vrndscale_not_valign_vshuf MI.opcode hop
  constructor
  · intro h16
    have hland : Int.land (n : Int) 15 ≠ (n : Int) := by
      intro hc
      have := (int_land15_iff n hn).mp hc
      omega
    have hadj : performCustomAdjustments MI
        (lookupNewOpc T (descOf MI.opcode) MI.opcode) = none := by
      simp [performCustomAdjustments, hva, hvs, hop, hval, hland]
    rcases compress_shape descOf T MI with hs | ⟨_, _, _, _, _, MIadj, h6, _⟩
    · exact hs
    · rw [hadj] at h6
      cases h6
  · intro h16
    have hland : Int.land (n : Int) 15 = (n : Int) :=
      (int_land15_iff n hn).mpr h16
    have hadj : performCustomAdjustments MI
        (lookupNewOpc T (descOf MI.opcode) MI.opcode) = some MI := by
      simp [performCustomAdjustments, hva, hvs, hop, hval, hland]
    exact compress_success descOf T MI MI henc hK hB hnz hext hadj

/-- C6 witness: a VRNDSCALEPDZ128rri with immediate 0x17 is left with
opcode and immediate unchanged; with immediate 0x07 it is rewritten to
the table opcode and the immediate passes through unchanged. -/
theorem C6_witness :
    (CompressEvexToVexImpl
      (fun _ => ⟨Encoding.EVEX, false, false, false, false⟩)
      ⟨fun _ => some 201, fun _ => none⟩
      ⟨VRNDSCALEPDZ128rri, 3, [Operand.reg (Reg.xmm 1), Operand.reg (Reg.xmm 2),
        Operand.imm 0x17], false⟩ =
      (false, ⟨VRNDSCALEPDZ128rri, 3, [Operand.reg (Reg.xmm 1),
        Operand.reg (Reg.xmm 2), Operand.imm 0x17], false⟩)) ∧
    (CompressEvexToVexImpl
      (fun _ => ⟨Encoding.EVEX, false, false, false, false⟩)
      ⟨fun _ => some 201, fun _ => none⟩
      ⟨VRNDSCALEPDZ128rri, 3, [Operand.reg (Reg.xmm 1), Operand.reg (Reg.xmm 2),
        Operand.imm 0x07], false⟩ =
      (true, ⟨201, 3, [Operand.reg (Reg.xmm 1), Operand.reg (Reg.xmm 2),
        Operand.imm 0x07], true⟩)) :=
  ⟨(C6_rndscale_immediate_validation _ _ _ 0x17 (by decide) (by decide)
      (by decide) (by decide) (by decide) (by decide) (by decide)
      (by decide)).1 (by decide),
   (C6_rndscale_immediate_validation _ _ _ 0x07 (by decide) (by decide)
      (by decide) (by decide) (by decide) (by decide) (by decide)
      (by decide)).2 (by decide)⟩

/-- C7 counterexample: the claim asserts the remap of immediate 2 is 0x28
and of immediate 3 is 0x29, but the code formula
0x20 | ((v & 2) << 3) | (v & 1) moves bit 1 to bit 4 (value 0x10), so a
lane-select instruction with immediate 2 is adjusted to 0x30, not 0x28,
and one with immediate 3 to 0x31, not 0x29. -/
theorem C7_counterexample :
    performCustomAdjustments
        ⟨VSHUFF32X4Z256rri, 4, [Operand.reg (Reg.ymm 0), Operand.reg (Reg.ymm 1),
          Operand.reg (Reg.ymm 2), Operand.imm 2], false⟩ 99 =
      some ⟨VSHUFF32X4Z256rri, 4, [Operand.reg (Reg.ymm 0),
        Operand.reg (Reg.ymm 1), Operand.reg (Reg.ymm 2), Operand.imm 0x30],
        false⟩ ∧
    vshufImmRemap 2 = 0x30 ∧ vshufImmRemap 3 = 0x31 ∧
    vshufImmRemap 2 ≠ 0x28 ∧ vshufImmRemap 3 ≠ 0x29 := by
  refine ⟨?_, by decide, by decide, by decide, by decide⟩
  decide

/-- C7 (amended): for the lane-select (VSHUF) adjustment family the
adjustment never aborts, and for each valid 2-bit immediate v in
{0, 1, 2, 3} the rewritten immediate is 0x20 | ((v & 2) << 3) | (v & 1),
i.e. 0x20, 0x21, 0x30 and 0x31 respectively. -/
theorem C7_lane_select_remap (MI : MachineInstr) (newOpc : Nat)
    (hop : isVSHUFCase MI.opcode = true) :
    (∃ MIadj, performCustomAdjustments MI newOpc = some MIadj) ∧
    (∀ v : Int, MI.operands.get? (MI.numExplicitOperands - 1) =
        some (Operand.imm v) →
      ((v = 0 → performCustomAdjustments MI newOpc =
          some (setLastExplicitImm MI 0x20)) ∧
       (v = 1 → performCustomAdjustments MI newOpc =
          some (setLastExplicitImm MI 0x21)) ∧
       (v = 2 → performCustomAdjustments MI newOpc =
          some (setLastExplicitImm MI 0x30)) ∧
       (v = 3 → performCustomAdjustments MI newOpc =
          some (setLastExplicitImm MI 0x31)))) := by
  have hva := vshuf_not_valign MI.opcode hop
  have hgen : performCustomAdjustments MI newOpc =
      some (setLastExplicitImm MI (vshufImmRemap (lastExplicitImmVal MI))) := by
    simp [performCustomAdjustments, hva, hop]
  refine ⟨⟨_, hgen⟩, ?_⟩
  intro v himm
  have hval : lastExplicitImmVal MI = v := by
    unfold lastExplicitImmVal
    rw [himm]
  refine ⟨?_, ?_, ?_, ?_⟩ <;> intro hv
  · rw [hgen, hval, hv, show vshufImmRemap 0 = (0x20 : Int) from by decide]
  · rw [hgen, hval, hv, show vshufImmRemap 1 = (0x21 : Int) from by decide]
  · rw [hgen, hval, hv, show vshufImmRemap 2 = (0x30 : Int) from by decide]
  · rw [hgen, hval, hv, show vshufImmRemap 3 = (0x31 : Int) from by decide]

/-- C7 witness: a VSHUFF32X4Z256rri with immediate 2 is adjusted to
immediate 0x30 and the adjustment succeeds. -/
theorem C7_witness :
    performCustomAdjustments
      ⟨VSHUFF32X4Z256rri, 4, [Operand.reg (Reg.ymm 0), Operand.reg (Reg.ymm 1),
        Operand.reg (Reg.ymm 2), Operand.imm 2], false⟩ 99 =
      some (setLastExplicitImm
        ⟨VSHUFF32X4Z256rri, 4, [Operand.reg (Reg.ymm 0), Operand.reg (Reg.ymm 1),
          Operand.reg (Reg.ymm 2), Operand.imm 2], false⟩ 0x30) :=
  ((C7_lane_select_remap _ 99 (by decide)).2 2 (by decide)).2.2.1 rfl

/-- C8: a successful rewrite changes only the opcode (to the nonzero table
entry), sets the annotation flag, and at most the last explicit operand
(the adjusted immediate, only for the enumerated adjustment families);
operand count and all other operands are unchanged, and outside the VALIGN
and VSHUF families the operand list is fully unchanged. -/
theorem C8_rewrite_frame (descOf : Nat → MCInstrDesc) (T : EvexToVexTables)
    (MI : MachineInstr) (h : (CompressEvexToVexImpl descOf T MI).1 = true) :
    ∃ newOpc : Nat, newOpc ≠ 0 ∧
      (T.table128 MI.opcode = some newOpc ∨
        T.table256 MI.opcode = some newOpc) ∧
      (CompressEvexToVexImpl descOf T MI).2.opcode = newOpc ∧
      (CompressEvexToVexImpl descOf T MI).2.isEvex2VexCompressed = true ∧
      (CompressEvexToVexImpl descOf T MI).2.numExplicitOperands =
        MI.numExplicitOperands ∧
      (CompressEvexToVexImpl descOf T MI).2.operands.length =
        MI.operands.length ∧
      (∀ i, i ≠ MI.numExplicitOperands - 1 →
        (CompressEvexToVexImpl descOf T MI).2.operands.get? i =
          MI.operands.get? i) ∧
      ((isVALIGNCase MI.opcode = false ∧ isVSHUFCase MI.opcode = false) →
        (CompressEvexToVexImpl descOf T MI).2.operands = MI.operands) := by
  rcases compress_shape descOf T MI with hs | ⟨h1, h2, h3, h4, h5, MIadj, h6, hs⟩
  · rw [hs] at h
    cases h
  · obtain ⟨a1, a2, a3, a4, a5, a6⟩ := adjust_shape MI _ MIadj h6
    refine ⟨lookupNewOpc T (descOf MI.opcode) MI.opcode, h4,
      lookupNewOpc_mem T (descOf MI.opcode) MI.opcode h4, ?_, ?_, ?_, ?_, ?_, ?_⟩
    · rw [hs]
    · rw [hs]
    · rw [hs]
      exact a3
    · rw [hs]
      exact a4
    · intro i hi
      rw [hs]
      exact a5 i hi
    · intro hcase
      rw [hs]
      rw [a6 hcase]

/-- C8 witness: an eligible W128 instruction outside all adjustment
families is rewritten with only the opcode and annotation changed. -/
theorem C8_witness :
    ∃ newOpc : Nat, newOpc ≠ 0 ∧
      ((fun (opc : Nat) => if opc = 100 then some 200 else none) 100 =
          some newOpc ∨
        (fun (_ : Nat) => (none : Option Nat)) 100 = some newOpc) ∧
      (CompressEvexToVexImpl
        (fun _ => ⟨Encoding.EVEX, false, false, false, false⟩)
        ⟨fun opc => if opc = 100 then some 200 else none, fun _ => none⟩
        ⟨100, 2, [Operand.reg (Reg.xmm 1), Operand.imm 9],
          false⟩).2.opcode = newOpc ∧
      (CompressEvexToVexImpl
        (fun _ => ⟨Encoding.EVEX, false, false, false, false⟩)
        ⟨fun opc => if opc = 100 then some 200 else none, fun _ => none⟩
        ⟨100, 2, [Operand.reg (Reg.xmm 1), Operand.imm 9],
          false⟩).2.isEvex2VexCompressed = true ∧
      (CompressEvexToVexImpl
        (fun _ => ⟨Encoding.EVEX, false, false, false, false⟩)
        ⟨fun opc => if opc = 100 then some 200 else none, fun _ => none⟩
        ⟨100, 2, [Operand.reg (Reg.xmm 1), Operand.imm 9],
          false⟩).2.numExplicitOperands = 2 ∧
      (CompressEvexToVexImpl
        (fun _ => ⟨Encoding.EVEX, false, false, false, false⟩)
        ⟨fun opc => if opc = 100 then some 200 else none, fun _ => none⟩
        ⟨100, 2, [Operand.reg (Reg.xmm 1), Operand.imm 9],
          false⟩).2.operands.length =
        ([Operand.reg (Reg.xmm 1), Operand.imm 9] : List Operand).length ∧
      (∀ i, i ≠ 2 - 1 →
        (CompressEvexToVexImpl
          (fun _ => ⟨Encoding.EVEX, false, false, false, false⟩)
          ⟨fun opc => if opc = 100 then some 200 else none, fun _ => none⟩
          ⟨100, 2, [Operand.reg (Reg.xmm 1), Operand.imm 9],
            false⟩).2.operands.get? i =
          ([Operand.reg (Reg.xmm 1), Operand.imm 9] : List Operand).get? i) ∧
      ((isVALIGNCase 100 = false ∧ isVSHUFCase 100 = false) →
        (CompressEvexToVexImpl
          (fun _ => ⟨Encoding.EVEX, false, false, false, false⟩)
          ⟨fun opc => if opc = 100 then some 200 else none, fun _ => none⟩
          ⟨100, 2, [Operand.reg (Reg.xmm 1), Operand.imm 9],
            false⟩).2.operands = [Operand.reg (Reg.xmm 1), Operand.imm 9]) :=
  C8_rewrite_frame
    (fun _ => ⟨Encoding.EVEX, false, false, false, false⟩)
    ⟨fun opc => if opc = 100 then some 200 else none, fun _ => none⟩
    ⟨100, 2, [Operand.reg (Reg.xmm 1), Operand.imm 9], false⟩ (by decide)

/-- C9: under the invariant that no instruction reaching the register
check carries a full-width (ZMM) register operand, the defensive assertion
in usesExtendedRegister never fires: the checked scan returns the plain
boolean verdict, never the distinguished internal fault. -/
theorem C9_zmm_assertion_never_fires (MI : MachineInstr)
    (hinv : ∀ i : Fin 32, Operand.reg (Reg.zmm i) ∉ explicitOperands MI) :
    usesExtendedRegisterChecked (explicitOperands MI) =
      Except.ok (usesExtendedRegister MI) :=
  usesExtendedRegisterChecked_eq_ok (explicitOperands MI) hinv

/-- C9 witness: on a ZMM-free instruction the checked scan returns the
ordinary boolean verdict. -/
theorem C9_witness :
    usesExtendedRegisterChecked (explicitOperands
      ⟨100, 3, [Operand.reg (Reg.xmm 1), Operand.reg (Reg.ymm 20),
        Operand.imm 2], false⟩) =
      Except.ok (usesExtendedRegister
        ⟨100, 3, [Operand.reg (Reg.xmm 1), Operand.reg (Reg.ymm 20),
          Operand.imm 2], false⟩) :=
  C9_zmm_assertion_never_fires _ (by decide)

/-- C10: a table entry mapping to short-form opcode 0 behaves exactly like
a table miss: erasing all zero-valued entries never changes the result of
CompressEvexToVexImpl, and when both partitions map the opcode to 0 the
instruction is left unchanged with result false. -/
theorem C10_zero_entry_is_miss (descOf : Nat → MCInstrDesc)
    (T : EvexToVexTables) (MI : MachineInstr) :
    CompressEvexToVexImpl descOf T MI =
      CompressEvexToVexImpl descOf
        ⟨eraseZeroEntries T.table128, eraseZeroEntries T.table256⟩ MI ∧
    (T.table128 MI.opcode = some 0 → T.table256 MI.opcode = some 0 →
      CompressEvexToVexImpl descOf T MI = (false, MI)) := by
  constructor
  · exact compress_table_congr descOf T
      ⟨eraseZeroEntries T.table128, eraseZeroEntries T.table256⟩ MI
      (lookupNewOpc_erase T (descOf MI.opcode) MI.opcode).symm
  · intro h1 h2
    refine compress_of_lookup_zero descOf T MI
      (lookupNewOpc_zero_of_getD T (descOf MI.opcode) MI.opcode ?_ ?_)
    · rw [h1]
      rfl
    · rw [h2]
      rfl

/-- C10 witness: an otherwise eligible instruction whose opcode maps to
the sentinel 0 in both partitions is left unchanged. -/
theorem C10_witness :
    CompressEvexToVexImpl (fun _ => ⟨Encoding.EVEX, false, false, false, false⟩)
      ⟨fun _ => some 0, fun _ => some 0⟩
      ⟨100, 1, [Operand.reg (Reg.xmm 1)], false⟩ =
      (false, ⟨100, 1, [Operand.reg (Reg.xmm 1)], false⟩) :=
  (C10_zero_entry_is_miss _ _ _).2 rfl rfl

end EvexToVex
